import Mathlib

/-!
# Verification of the scraping engine's interaction, monitoring and retry logic

Shallow embedding of the core control logic of the dynamic web scraper
(`src/scraping/*.py`): the retry coordinator (`scraper.py`), the expansion
engine (`dynamic_content.py`), the mutation monitor (`content_monitor.py`),
the stability waiter (`utils.py`) and the structure snapshotter
(`structure_capture.py`).  Browser-side effects (DOM queries, script
evaluation, element content) are modelled as oracles passed to the embedded
functions; everything the Python control flow decides on is computed exactly
as in the source.  Python `float` division is modelled exactly over `ℚ`;
wall-clock sleeps advance an explicit millisecond counter.
-/

namespace Scraping

/-- Python's `sep.join(parts)`. -/
def pyJoin (sep : String) : List String → String
  | [] => ""
  | [x] => x
  | x :: y :: rest => x ++ sep ++ pyJoin sep (y :: rest)

/-- Python's `str.lower` (the strings it is applied to here are ASCII). -/
def pyLower (s : String) : String := ⟨s.data.map Char.toLower⟩

/-- Python's `str.strip()` (drop leading and trailing whitespace). -/
def pyStrip (s : String) : String :=
  ⟨((s.data.dropWhile Char.isWhitespace).reverse.dropWhile Char.isWhitespace).reverse⟩

/-- Whether `needle` occurs in `haystack` starting at this suffix or later. -/
def subAt (needle : List Char) : List Char → Bool
  | [] => needle.isEmpty
  | c :: rest => needle.isPrefixOf (c :: rest) || subAt needle rest

/-- Python's `needle in haystack` on strings (substring test). -/
def pySubstr (needle haystack : String) : Bool := subAt needle.data haystack.data

/-! ## content_monitor.py — ContentMonitor -/

namespace ContentMonitor

/-- One entry of the page-side mutation log installed by
`ContentMonitor._setup_mutation_observer` (content_monitor.py 89-134).
`timestamp` is `Date.now() - window.mutationStartTime` in milliseconds; the
summary below reads no other field, so the remaining payload (target,
added/removed nodes, attribute name) is kept as one opaque description. -/
structure MutationEvent where
  timestamp : Int
  payload : String
  deriving Repr, DecidableEq

/-- `mutations[-1].get('timestamp', 0) - mutations[0].get('timestamp', 0)`
(content_monitor.py line 345); the `getD 0` mirrors the `.get(_, 0)` default. -/
def timeSpan (mutations : List MutationEvent) : Int :=
  ((mutations.getLast?).map MutationEvent.timestamp).getD 0 -
    ((mutations.head?).map MutationEvent.timestamp).getD 0

/-- `mutation_count / (time_span / 1000)` guarded by `if time_span > 0`
(content_monitor.py 347-350), with float division modelled exactly on `ℚ`. -/
def mutationsPerSecond (mutations : List MutationEvent) : ℚ :=
  let time_span : Int := timeSpan mutations
  if 0 < time_span then (mutations.length : ℚ) / ((time_span : ℚ) / 1000)
  else 0

/-- The activity classification chain of content_monitor.py 352-356. -/
def activityLevel (mutations : List MutationEvent) : String :=
  let mps := mutationsPerSecond mutations
  if 5 < mps then "high"
  else if 1 < mps then "medium"
  else "low"

/-- Python's `round(x, 2)` (ties modelled as round-half-up; no statement below
depends on tie behaviour). -/
def round2 (q : ℚ) : ℚ := (round (q * 100) : ℤ) / 100

/-- The dict returned by `ContentMonitor._generate_monitoring_summary`
(content_monitor.py 338-364).  The zero-mutation branch returns only the two
keys `total_mutations` and `activity_level`; the missing keys are `none`. -/
structure MonitoringSummary where
  total_mutations : Nat
  time_span_ms : Option Int
  mutations_per_second : Option ℚ
  activity_level : String
  api_calls_detected : Option Nat
  deriving Repr, DecidableEq

/-- `ContentMonitor._generate_monitoring_summary` (content_monitor.py 338-364).
`api_calls` stands for `len(self.api_calls)`. -/
def generate_monitoring_summary (mutations : List MutationEvent) (api_calls : Nat) :
    MonitoringSummary :=
  if mutations.isEmpty then
    { total_mutations := 0, time_span_ms := none, mutations_per_second := none,
      activity_level := "none", api_calls_detected := none }
  else
    { total_mutations := mutations.length,
      time_span_ms := some (timeSpan mutations),
      mutations_per_second := some (round2 (mutationsPerSecond mutations)),
      activity_level := activityLevel mutations,
      api_calls_detected := some api_calls }

/-- `ContentMonitor._wait_for_content_stability` (content_monitor.py 252-270),
with wall-clock time made explicit: `now`, `stable_start` are milliseconds,
each `time.sleep` advances `now`, and `mutationCount t` is the value
`len(self._retrieve_mutations(page))` returned when polled at absolute time
`t`.  The loop itself has no bound other than its `while` condition, so the
embedding carries `fuel` (number of remaining loop iterations): a result
`some t` means the call returns at time `t`, `none` means the loop was still
running after `fuel` iterations. -/
def wait_for_content_stability (mutationCount : Nat → Nat)
    (max_wait stability_duration : Nat) :
    (fuel : Nat) → (now stable_start last_mutation_count : Nat) → Option Nat
  | 0, _, _, _ => none
  | fuel + 1, now, stable_start, last_mutation_count =>
    -- `while (time.time() - stable_start) * 1000 < max_wait`
    if max_wait ≤ now - stable_start then some now
    else
      let current_mutations := mutationCount now
      if current_mutations = last_mutation_count then
        -- `time.sleep(0.5)` then the stability check
        let now2 := now + 500
        if stability_duration ≤ now2 - stable_start then some now2
        else wait_for_content_stability mutationCount max_wait stability_duration
          fuel now2 stable_start last_mutation_count
      else
        -- new mutations: `stable_start = time.time()` — this also restarts the
        -- `max_wait` deadline, since the while condition measures from
        -- `stable_start`; then `time.sleep(0.1)`
        wait_for_content_stability mutationCount max_wait stability_duration
          fuel (now + 100) now current_mutations

/-- Entry state of `_wait_for_content_stability` called at time `t0`:
`stable_start = time.time()`, `last_mutation_count = 0`. -/
def wait_for_content_stability_call (mutationCount : Nat → Nat)
    (max_wait stability_duration fuel t0 : Nat) : Option Nat :=
  wait_for_content_stability mutationCount max_wait stability_duration fuel t0 t0 0

/-- A page on which every poll of the mutation log sees a count that grew
since the previous poll (one new mutation per elapsed millisecond). -/
def everGrowingMutations (t : Nat) : Nat := t + 1

end ContentMonitor

/-! ## utils.py — ScrapingUtils -/

namespace ScrapingUtils

/-- Why the page-side stability promise of
`ScrapingUtils.wait_for_content_settlement` resolved: `stable` from the
`stableFor >= stability_duration` branch, `deadline` from the
`iterations >= maxIterations` branch (the `setTimeout(resolve, max_wait_time)`
fallback fires at the same wall-clock moment as the iteration cap, since the
loop polls every 100 ms and `maxIterations = max_wait_time // 100`). -/
inductive SettleOutcome where
  | stable
  | deadline
  deriving Repr, DecidableEq

/-- The page-side `checkStability` loop of utils.py 230-255.  `heights k` is
`document.body.scrollHeight` sampled at the k-th poll (k = 0 at promise
construction, then one poll every 100 ms).  The source loop stops by itself
when `iterations`, incremented once per call, reaches `maxIterations`; the
structural argument `g` carries `maxIterations - iterations`, so the guard
`iterations >= maxIterations` is exactly `g ≤ 1` at the head of a call.
Returns the resolution reason and the iteration count at resolution. -/
def checkStability (heights : Nat → Int) (stability_duration : Nat) :
    (g : Nat) → (iterations : Nat) → (lastHeight : Int) → (stableFor : Nat) →
    SettleOutcome × Nat
  | 0, iterations, _, _ => (SettleOutcome.deadline, iterations + 1)
  | 1, iterations, _, _ => (SettleOutcome.deadline, iterations + 1)
  | g + 2, iterations, lastHeight, stableFor =>
    let it := iterations + 1
    let currentHeight := heights it
    if currentHeight = lastHeight then
      let sf := stableFor + 100
      if stability_duration ≤ sf then (SettleOutcome.stable, it)
      else checkStability heights stability_duration (g + 1) it currentHeight sf
    else
      checkStability heights stability_duration (g + 1) it currentHeight 0

/-- The full run of the injected stability promise (utils.py 223-259):
`maxIterations = max_wait_time // 100`, `lastHeight` initialised from sample 0,
`stableFor = 0`, `iterations = 0`. -/
def settlementPromise (heights : Nat → Int) (max_wait_time stability_duration : Nat) :
    SettleOutcome × Nat :=
  checkStability heights stability_duration (max_wait_time / 100) 0 (heights 0) 0

/-- `ScrapingUtils.wait_for_content_settlement` (utils.py 219-264): evaluates
the page-side promise and falls off the end of the Python function — it
returns `None` (modelled as `none : Option Bool`), whichever way the promise
resolved.  The resolution reason is observable only through
`settlementPromise`, never through the return value. -/
def wait_for_content_settlement (heights : Nat → Int)
    (max_wait_time stability_duration : Nat) : Option Bool :=
  let _resolved := settlementPromise heights max_wait_time stability_duration
  none

/-- A page whose rendered height flips every 200 ms (so every second 100 ms
poll sees a change): the claim's oscillation scenario. -/
def oscillatingHeights (k : Nat) : Int :=
  if (k / 2) % 2 = 0 then 1000 else 1200

/-- One element descriptor as assembled by the discovery scripts
(`dynamic_content.py` 93-117): the fields the identity functions read.
Missing dict keys are modelled as `""` (both discovery scripts always set
these keys, and the Python identity functions treat `""` like a missing key
via truthiness / `filter(None, ...)`). -/
structure ElementInfo where
  id : String
  tagName : String
  className : String
  text : String
  deriving Repr, DecidableEq

/-- The `signature_parts` list built by
`ScrapingUtils.generate_element_signature` (utils.py 341-348): an `id:`,
`tag:` and `class:` part for each truthy field, in that order. -/
def signature_parts (element_info : ElementInfo) : List String :=
  (if element_info.id ≠ "" then ["id:" ++ element_info.id] else []) ++
  (if element_info.tagName ≠ "" then ["tag:" ++ element_info.tagName] else []) ++
  (if element_info.className ≠ "" then ["class:" ++ element_info.className] else [])

/-- `ScrapingUtils.generate_element_signature` (utils.py 338-350): joins the
parts with `|`, falling back to `"unknown"` when all three are empty. -/
def generate_element_signature (element_info : ElementInfo) : String :=
  if (signature_parts element_info).isEmpty then "unknown"
  else pyJoin "|" (signature_parts element_info)

end ScrapingUtils

/-! ## dynamic_content.py — DynamicContentHandler -/

namespace DynamicContentHandler

open ScrapingUtils (ElementInfo)

/-- The dict `_capture_element_content` returns (dynamic_content.py 130-175):
either the element's content fields, or — element not found / capture failed —
an error dict.  The function catches its own exceptions, so it never raises. -/
inductive CaptureResult where
  | content (innerHTML textContent : String) (childElementCount : Nat)
      (scrollHeight clientHeight : Int)
  | error (message : String)
  deriving Repr, DecidableEq

/-- The browser-side facts one `_expand_element` run observes about one
element (dynamic_content.py 191-250): whether the lookup finds it, which
strategy bodies raise, and which strategy guards hold.  `evaluateRaises`
covers a failure of the `page.evaluate` round-trip itself, caught by the
Python-level `except` of `_expand_element`. -/
structure ElementBehavior where
  found : Bool
  clickRaises : Bool
  hasAriaExpanded : Bool
  ariaRaises : Bool
  isDetails : Bool
  detailsRaises : Bool
  hasToggleData : Bool
  toggleRaises : Bool
  evaluateRaises : Bool
  deriving Repr, DecidableEq

/-- The dict the expansion script returns (dynamic_content.py 213-248). -/
structure JsExpansionResult where
  success : Bool
  method : Option String
  error : Option String
  deriving Repr, DecidableEq

/-- The page-side expansion script of `_expand_element` (dynamic_content.py
191-250).  Strategy 1 (`element.click()`) runs in its own `try`; a raise
falls into the second `try`, which tests the three guarded strategies in
order and returns the first applicable one — but a raise inside that second
`try` (`catch (e2)`) returns failure without trying the remaining
strategies.  Error message texts stand in for the runtime `e.message`. -/
def jsExpandElement (b : ElementBehavior) : JsExpansionResult :=
  if !b.found then
    { success := false, method := none, error := some "Element not found" }
  else if !b.clickRaises then
    { success := true, method := some "click", error := none }
  else if b.hasAriaExpanded then
    if b.ariaRaises then
      { success := false, method := none, error := some "error in aria-expanded step" }
    else
      { success := true, method := some "aria-expanded", error := none }
  else if b.isDetails then
    if b.detailsRaises then
      { success := false, method := none, error := some "error in details-open step" }
    else
      { success := true, method := some "details-open", error := none }
  else if b.hasToggleData then
    if b.toggleRaises then
      { success := false, method := none, error := some "error in data-toggle step" }
    else
      { success := true, method := some "data-toggle", error := none }
  else
    { success := false, method := none, error := some "No suitable expansion method found" }

/-- The result dict of `_expand_element` after `result.update(expansion_result)`
(dynamic_content.py 179-265).  The script's dict carries the key `method`,
not `method_used`, so `dict.update` leaves the pre-initialised
`method_used: None` untouched and adds `method` alongside it. -/
structure InteractionResult where
  success : Bool
  method_used : Option String
  method : Option String
  error : Option String
  content_changed : Bool
  deriving Repr, DecidableEq

/-- `DynamicContentHandler._expand_element` (dynamic_content.py 177-265):
captures content, runs the expansion script, merges its dict, and — only when
`success` — recaptures after `time.sleep(0.5)` and diffs the two captures.
`content_before` / `content_after` are the two capture oracles. -/
def expand_element (b : ElementBehavior) (content_before content_after : CaptureResult) :
    InteractionResult :=
  if b.evaluateRaises then
    { success := false, method_used := none, method := none,
      error := some "evaluate failed", content_changed := false }
  else
    let js := jsExpandElement b
    if js.success then
      { success := true, method_used := none, method := js.method, error := js.error,
        content_changed := content_before ≠ content_after }
    else
      { success := false, method_used := none, method := js.method, error := js.error,
        content_changed := false }

/-- The claim's reading of the strategy dispatch, modelled from the spec's
words for comparison with `jsExpandElement`: strategies are tried in the
fixed order click, aria-expanded, details-open, data-toggle (each guarded by
its applicability), and the first one that does not raise is recorded as the
successful method. -/
def claimedFirstNonRaisingMethod (b : ElementBehavior) : Option String :=
  if !b.clickRaises then some "click"
  else if b.hasAriaExpanded && !b.ariaRaises then some "aria-expanded"
  else if b.isDetails && !b.detailsRaises then some "details-open"
  else if b.hasToggleData && !b.toggleRaises then some "data-toggle"
  else none

/-- `DynamicContentHandler._generate_element_id` (dynamic_content.py 351-362).
For a truthy `id` the result is `id_<id>`; otherwise tag, underscored class
and the first 8 characters of `str(hash(text[:50]))` are joined with `_`,
dropping falsy parts (`filter(None, parts)`).  `pyHash` stands for Python's
(process-stable) `hash`. -/
def generate_element_id (pyHash : String → Int) (element_info : ElementInfo) : String :=
  if element_info.id ≠ "" then "id_" ++ element_info.id
  else
    let parts := [element_info.tagName,
      (element_info.className.replace " " "_"),
      (toString (pyHash (element_info.text.take 50))).take 8]
    pyJoin "_" (parts.filter (· ≠ ""))

/-- The browser-session oracles one `explore_expandable_content` run reads
(dynamic_content.py 17-62): the discovered top-level expandables, each
element's expansion behaviour, the four content captures the handler takes
(collapsed snapshot, the before/after pair inside `_expand_element`, and the
post-settlement snapshot), the subtree re-scan `_find_nested_expandables`
performs inside an expanded element, and the process hash function. -/
structure ExplorePage where
  expandables : List ElementInfo
  behavior : ElementInfo → ElementBehavior
  contentCollapsed : ElementInfo → CaptureResult
  contentBefore : ElementInfo → CaptureResult
  contentAfter : ElementInfo → CaptureResult
  contentSettled : ElementInfo → CaptureResult
  nestedFound : ElementInfo → List ElementInfo
  pyHash : String → Int

/-- One record of `_handle_nested_expandables`'s result map
(dynamic_content.py 334-338): element info, interaction result and the
`depth` tag. -/
structure NestedRecord where
  element_info : ElementInfo
  interaction_result : InteractionResult
  depth : Nat
  deriving Repr, DecidableEq

/-- What `_handle_nested_expandables` returns: the sentinel dict
`{'skipped': 'Max depth reached'}` past the depth limit, otherwise the map of
per-element records keyed by element id. -/
inductive NestedOutcome where
  | skipped (msg : String)
  | results (records : List (String × NestedRecord))
  deriving Repr, DecidableEq

/-- `DynamicContentHandler._handle_nested_expandables` (dynamic_content.py
322-349): depth guard first, then at most the first 5 nested elements are
expanded, each recorded with the current `depth`.  The per-element `try`
cannot fire in the embedding because `expand_element` (like its source,
which catches every exception) is total, so the `error` record shape is
unreachable; the body never recurses into deeper levels. -/
def handle_nested_expandables (page : ExplorePage) (nested_elements : List ElementInfo)
    (depth max_depth : Nat) : NestedOutcome :=
  if depth > max_depth then NestedOutcome.skipped "Max depth reached"
  else
    NestedOutcome.results <|
      (nested_elements.take 5).map fun element_info =>
        (generate_element_id page.pyHash element_info,
         { element_info := element_info,
           interaction_result := expand_element (page.behavior element_info)
             (page.contentBefore element_info) (page.contentAfter element_info),
           depth := depth })

/-- One entry of `self.expanded_states` as written by
`explore_expandable_content` (dynamic_content.py 25-61).
`nested_expandables` is `none` when the key was never added (expansion failed
or the subtree re-scan found nothing); `errors` mirrors the error list, which
stays empty because every callee of the loop body catches its own
exceptions. -/
structure ExpandedState where
  element_info : ElementInfo
  collapsed_content : CaptureResult
  expanded_content : Option CaptureResult
  interaction_result : Option InteractionResult
  nested_expandables : Option NestedOutcome
  errors : List String
  deriving Repr, DecidableEq

/-- The loop body of `explore_expandable_content` for one discovered element
(dynamic_content.py 25-60): capture the collapsed state, attempt expansion,
and on success wait for settlement, capture the expanded state, re-scan the
element's subtree and — only if that scan found anything — process the
findings at depth 1 with `max_depth = 3` (the call site passes `depth=1` and
leaves `max_depth` at its default 3). -/
def exploreEntry (page : ExplorePage) (element_info : ElementInfo) :
    String × ExpandedState :=
  let element_id := generate_element_id page.pyHash element_info
  let interaction_result := expand_element (page.behavior element_info)
    (page.contentBefore element_info) (page.contentAfter element_info)
  if interaction_result.success then
    let new_expandables := page.nestedFound element_info
    (element_id,
     { element_info := element_info,
       collapsed_content := page.contentCollapsed element_info,
       expanded_content := some (page.contentSettled element_info),
       interaction_result := some interaction_result,
       nested_expandables :=
         if new_expandables.isEmpty then none
         else some (handle_nested_expandables page new_expandables 1 3),
       errors := [] })
  else
    (element_id,
     { element_info := element_info,
       collapsed_content := page.contentCollapsed element_info,
       expanded_content := none,
       interaction_result := some interaction_result,
       nested_expandables := none,
       errors := [] })

/-- `DynamicContentHandler.explore_expandable_content` (dynamic_content.py
17-62), as the list of `expanded_states` entries it writes, in discovery
order. -/
def explore_expandable_content (page : ExplorePage) : List (String × ExpandedState) :=
  page.expandables.map (exploreEntry page)

/-! Concrete pages and elements used to evaluate the definitions. -/

/-- A fixed element content capture. -/
def sampleContent : CaptureResult :=
  CaptureResult.content "<p>teaser</p>" "teaser" 1 120 120

/-- A second, different capture (revealed content). -/
def sampleContentRevealed : CaptureResult :=
  CaptureResult.content "<p>teaser</p><div>body</div>" "teaser body" 2 480 480

/-- An element on which the primary click strategy works. -/
def happyBehavior : ElementBehavior :=
  { found := true, clickRaises := false, hasAriaExpanded := false, ariaRaises := false,
    isDetails := false, detailsRaises := false, hasToggleData := false, toggleRaises := false,
    evaluateRaises := false }

/-- A found element on which the click raises and the first applicable
guarded strategy (it has `aria-expanded`) also raises, while the native
disclosure strategy (it is a `<details>` element) would not raise. -/
def strategyRaisingElement : ElementBehavior :=
  { found := true, clickRaises := true, hasAriaExpanded := true, ariaRaises := true,
    isDetails := true, detailsRaises := false, hasToggleData := false, toggleRaises := false,
    evaluateRaises := false }

/-- The outer disclosure element of the nested-expansion page. -/
def outerElement : ElementInfo := ⟨"outer-panel", "DIV", "expandable", "Show more"⟩

/-- The nested disclosure element revealed inside `outerElement`. -/
def innerElement : ElementInfo := ⟨"inner-panel", "DETAILS", "", "More"⟩

/-- A page with one top-level expandable whose expansion succeeds but whose
content capture is identical before and after (no content change), and whose
subtree re-scan finds one nested element. -/
def nestedNoChangePage : ExplorePage :=
  { expandables := [outerElement],
    behavior := fun _ => happyBehavior,
    contentCollapsed := fun _ => sampleContent,
    contentBefore := fun _ => sampleContent,
    contentAfter := fun _ => sampleContent,
    contentSettled := fun _ => sampleContent,
    nestedFound := fun e => if e = outerElement then [innerElement] else [],
    pyHash := fun _ => 0 }

end DynamicContentHandler

/-! ## structure_capture.py — PageStructureCapture -/

namespace PageStructureCapture

/-- The browser-session calls `capture_page_structure` makes
(structure_capture.py 15-39): each of the four sub-captures is one
`page.evaluate` round-trip that either yields its payload (kept opaque — the
claims are about the error plumbing, not the payload shape) or raises.  None
of the sub-captures is wrapped in a Python `try`, so a raise propagates. -/
structure SnapshotPage where
  url : String
  title : String
  viewport : String
  dom_snapshot : Except String String
  interactive_elements : Except String (List String)
  meta_info : Except String String
  content_patterns : Except String String

/-- The `structure_data` dict (structure_capture.py 18-37); `api_endpoints`
starts empty and is filled by the caller. -/
structure PageStructureData where
  url : String
  title : String
  viewport : String
  dom_snapshot : String
  interactive_elements : List String
  api_endpoints : List String
  meta_info : String
  content_patterns : String
  deriving Repr, DecidableEq

/-- `PageStructureCapture.capture_page_structure` (structure_capture.py
15-39): builds the dict by calling the four sub-captures in source order;
the first sub-capture that raises aborts the whole call with that error
(there is no `try`/`except` in the function). -/
def capture_page_structure (page : SnapshotPage) : Except String PageStructureData := do
  let dom ← page.dom_snapshot
  let interactive ← page.interactive_elements
  let meta ← page.meta_info
  let patterns ← page.content_patterns
  pure { url := page.url, title := page.title, viewport := page.viewport,
         dom_snapshot := dom, interactive_elements := interactive,
         api_endpoints := [], meta_info := meta, content_patterns := patterns }

/-- A partially corrupted page: the DOM-snapshot `page.evaluate` raises
(for example because the execution context was torn down mid-capture) while
the other sub-captures would succeed. -/
def corruptedPage : SnapshotPage :=
  { url := "https://example.com", title := "Example", viewport := "1280x800",
    dom_snapshot := Except.error "Execution context was destroyed",
    interactive_elements := Except.ok [], meta_info := Except.ok "meta",
    content_patterns := Except.ok "patterns" }

end PageStructureCapture

/-! ## scraper.py — DynamicWebScraper -/

namespace DynamicWebScraper

/-- The title phrase list of `_detect_bot_protection` (scraper.py 310-314). -/
def protection_titles : List String :=
  ["just a moment", "checking your browser", "cloudflare",
   "access denied", "blocked", "captcha", "security check",
   "ddos protection", "rate limited"]

/-- The selector list of `_detect_bot_protection` (scraper.py 322-329). -/
def protection_selectors : List String :=
  [".cf-browser-verification", "#challenge-form", ".grecaptcha-badge",
   "[data-sitekey]", ".challenge-running",
   "meta[name=\"robots\"][content*=\"noindex\"]"]

/-- The title indicators (scraper.py 316-318): one entry per fixed phrase
occurring in `title.lower()`, in list order. -/
def titleIndicators (title : String) : List String :=
  protection_titles.filterMap fun indicator =>
    if pySubstr indicator (pyLower title) then
      some ("Title contains \'" ++ indicator ++ "\'")
    else none

/-- The selector probe loop (scraper.py 331-335): `query_selector s` yields
whether the selector matched, or raises.  The single `try` wraps the whole
loop, so a raise keeps the indicators collected so far and skips the rest. -/
def probeSelectors (query_selector : String → Except String Bool) :
    List String → List String
  | [] => []
  | s :: rest =>
    match query_selector s with
    | Except.error _ => []
    | Except.ok true => ("Found protection element: " ++ s) :: probeSelectors query_selector rest
    | Except.ok false => probeSelectors query_selector rest

/-- The selector indicators over the fixed list. -/
def selectorIndicators (query_selector : String → Except String Bool) : List String :=
  probeSelectors query_selector protection_selectors

/-- The minimal-content check (scraper.py 338-343): `body_text` is the
visible body text, or a raise (its own `try`, which then skips the check);
flagged when the stripped text has fewer than 100 characters. -/
def bodyIndicator (body_text : Except String String) : Option String :=
  match body_text with
  | Except.error _ => none
  | Except.ok t => if (pyStrip t).length < 100 then some "Very minimal page content" else none

/-- `DynamicWebScraper._detect_bot_protection` (scraper.py 305-345): collects
the three indicator groups in order and returns `"; ".join(...)` of all of
them, or `None` when nothing matched. -/
def detect_bot_protection (title : String)
    (query_selector : String → Except String Bool)
    (body_text : Except String String) : Option String :=
  let protection_indicators :=
    titleIndicators title ++ selectorIndicators query_selector ++
      (bodyIndicator body_text).toList
  if protection_indicators.isEmpty then none
  else some (pyJoin "; " protection_indicators)

/-- What one iteration of the retry loop of `comprehensive_scrape`
(scraper.py 112-291) can do, seen at loop level: the attempt body runs to the
`return` (scraper.py 281), raises an error that the `except` at 283 catches,
or hits the Cloudflare-bypass-failed path at 163-168 (`continue` when
attempts remain, otherwise a raise with a fixed message, likewise caught at
283).  `R` is the type of the compiled results dict. -/
inductive AttemptOutcome (R : Type) where
  | completes (results : R)
  | raises (error : String)
  | bypassFailedRetry
  deriving Repr, DecidableEq

/-- The message of the exception raised at scraper.py 168. -/
def cloudflareFailureMessage : String := "Failed to bypass Cloudflare protection"

/-- Python's `str(last_error)` for the `error` key of the failure dict
(scraper.py 296): `str(None)` is the text `"None"`. -/
def strOfLastError : Option String → String
  | none => "None"
  | some e => e

/-- What `comprehensive_scrape` returns (scraper.py 264-281 and 294-303):
either the success dict with `attempts_made = attempt + 1`, or the
`error_result` dict carrying `str(last_error)`, the stored partial results
and `attempts_made = max_retries`.  `P` is the type of
`getattr(self, 'results', {})`. -/
inductive ScrapeReturn (R P : Type) where
  | success (results : R) (attempts_made : Nat)
  | errorResult (error : String) (partial_results : P) (attempts_made : Nat)
  deriving Repr, DecidableEq

/-- The retry loop `for attempt in range(max_retries)` of
`comprehensive_scrape` (scraper.py 112-291) together with the fall-through
`error_result` (scraper.py 294-303).  `remaining` is the number of loop
iterations still to run (`max_retries - attempt`); exhausting it — or the
`break` taken when the last attempt raises — produces the `error_result`
dict.  The Cloudflare-bypass `continue` does not touch `last_error`. -/
def scrapeAttemptLoop {R P : Type} (outcome : Nat → AttemptOutcome R)
    (partial_results : P) (max_retries : Nat) :
    (remaining attempt : Nat) → (last_error : Option String) → ScrapeReturn R P
  | 0, _, last_error =>
    ScrapeReturn.errorResult (strOfLastError last_error) partial_results max_retries
  | remaining + 1, attempt, last_error =>
    match outcome attempt with
    | AttemptOutcome.completes r => ScrapeReturn.success r (attempt + 1)
    | AttemptOutcome.raises e =>
      if attempt < max_retries - 1 then
        scrapeAttemptLoop outcome partial_results max_retries remaining (attempt + 1) (some e)
      else
        ScrapeReturn.errorResult (strOfLastError (some e)) partial_results max_retries
    | AttemptOutcome.bypassFailedRetry =>
      if attempt < max_retries - 1 then
        scrapeAttemptLoop outcome partial_results max_retries remaining (attempt + 1) last_error
      else
        ScrapeReturn.errorResult (strOfLastError (some cloudflareFailureMessage))
          partial_results max_retries

/-- `DynamicWebScraper.comprehensive_scrape` (scraper.py 88-303) at the
retry-coordination level: an invalid URL raises `ValueError` before any
attempt (scraper.py 103-104); otherwise the loop runs with
`last_error = None`.  `url_valid` stands for `self.utils.is_url_valid(url)`;
`partial_results` for the `self.results` the failure dict embeds. -/
def comprehensive_scrape {R P : Type} (url_valid : Bool)
    (outcome : Nat → AttemptOutcome R) (partial_results : P)
    (max_retries : Nat) : Except String (ScrapeReturn R P) :=
  if url_valid then
    Except.ok (scrapeAttemptLoop outcome partial_results max_retries max_retries 0 none)
  else
    Except.error "Invalid URL"

end DynamicWebScraper

/-! ## Theorems -/

namespace ContentMonitor

theorem activityLevel_eq_high_iff (mutations : List MutationEvent) :
    activityLevel mutations = "high" ↔ 5 < mutationsPerSecond mutations := by
  unfold activityLevel
  by_cases h1 : 5 < mutationsPerSecond mutations
  · simp [h1]
  · by_cases h2 : 1 < mutationsPerSecond mutations <;> simp [h1, h2]

theorem activityLevel_eq_medium_iff (mutations : List MutationEvent) :
    activityLevel mutations = "medium" ↔
      1 < mutationsPerSecond mutations ∧ ¬ 5 < mutationsPerSecond mutations := by
  unfold activityLevel
  by_cases h1 : 5 < mutationsPerSecond mutations
  · simp [h1]
  · by_cases h2 : 1 < mutationsPerSecond mutations <;> simp [h1, h2]

theorem activityLevel_eq_low_iff (mutations : List MutationEvent) :
    activityLevel mutations = "low" ↔ mutationsPerSecond mutations ≤ 1 := by
  unfold activityLevel
  by_cases h1 : 5 < mutationsPerSecond mutations
  · constructor
    · intro h; simp [h1] at h
    · intro h; exact absurd (lt_of_le_of_lt h (by norm_num)) (not_lt.mpr (le_of_lt h1))
  · by_cases h2 : 1 < mutationsPerSecond mutations
    · constructor
      · intro h; simp [h1, h2] at h
      · intro h; exact absurd h (not_le.mpr h2)
    · simp [h1, h2, not_lt.mp h2]

/-- C3: the monitoring summary's activity level is a deterministic pure
function of the sealed mutation log (it does not depend on the API-call
count): it is `"none"` exactly when zero mutations were observed, `"high"`
exactly when mutations-per-second exceeds 5, `"medium"` exactly when it
exceeds 1 but not 5, and `"low"` otherwise — in particular the value 1
itself classifies as `"low"`, the boundary being exclusive. -/
theorem activity_level_classification (mutations : List MutationEvent)
    (api_calls api_calls' : Nat) :
    ((generate_monitoring_summary mutations api_calls).activity_level =
      (generate_monitoring_summary mutations api_calls').activity_level) ∧
    ((generate_monitoring_summary mutations api_calls).activity_level = "none" ↔
      mutations = []) ∧
    (mutations ≠ [] →
      ((generate_monitoring_summary mutations api_calls).activity_level = "high" ↔
        5 < mutationsPerSecond mutations) ∧
      ((generate_monitoring_summary mutations api_calls).activity_level = "medium" ↔
        1 < mutationsPerSecond mutations ∧ ¬ 5 < mutationsPerSecond mutations) ∧
      ((generate_monitoring_summary mutations api_calls).activity_level = "low" ↔
        mutationsPerSecond mutations ≤ 1)) := by
  by_cases h : mutations = []
  · subst h
    refine ⟨rfl, by simp [generate_monitoring_summary], by simp⟩
  · have hne : mutations.isEmpty = false := by
      simpa [List.isEmpty_iff] using h
    have hlevel : ∀ k : Nat, (generate_monitoring_summary mutations k).activity_level =
        activityLevel mutations := by
      intro k; simp [generate_monitoring_summary, hne]
    refine ⟨(hlevel api_calls).trans (hlevel api_calls').symm, ?_, fun _ => ?_⟩
    · rw [hlevel]
      constructor
      · intro habs
        unfold activityLevel at habs
        by_cases h1 : 5 < mutationsPerSecond mutations
        · simp [h1] at habs
        · by_cases h2 : 1 < mutationsPerSecond mutations <;> simp [h1, h2] at habs
      · intro habs; exact absurd habs h
    · rw [hlevel api_calls]
      exact ⟨activityLevel_eq_high_iff mutations, activityLevel_eq_medium_iff mutations,
        activityLevel_eq_low_iff mutations⟩

/-- Witness for C3: a log of two mutations spanning 2000 ms has exactly 1
mutation per second and classifies as `"low"`; the empty log classifies as
`"none"`. -/
theorem activity_level_classification_witness :
    (generate_monitoring_summary [⟨0, "m"⟩, ⟨2000, "m"⟩] 7).activity_level = "low" ∧
    mutationsPerSecond [⟨0, "m"⟩, ⟨2000, "m"⟩] = 1 ∧
    (generate_monitoring_summary [] 7).activity_level = "none" := by
  have hmps : mutationsPerSecond [⟨0, "m"⟩, ⟨2000, "m"⟩] = 1 := by
    norm_num [mutationsPerSecond, timeSpan]
  have h := activity_level_classification [⟨0, "m"⟩, ⟨2000, "m"⟩] 7 7
  have h0 := activity_level_classification ([] : List MutationEvent) 7 7
  refine ⟨((h.2.2 (by simp)).2.2).mpr (by rw [hmps]), hmps, h0.2.1.mpr rfl⟩

/-- C10: when the first and last mutations of a non-empty log carry equal
timestamps (for example a single-mutation log), the summary guards the
division: `mutations_per_second` is 0 and the activity level is `"low"` —
never `"none"`, and no division by zero occurs. -/
theorem zero_timespan_classifies_low (mutations : List MutationEvent)
    (h : mutations ≠ [])
    (heq : (mutations.head?.map MutationEvent.timestamp).getD 0 =
      (mutations.getLast?.map MutationEvent.timestamp).getD 0) (api_calls : Nat) :
    (generate_monitoring_summary mutations api_calls).mutations_per_second = some 0 ∧
    (generate_monitoring_summary mutations api_calls).activity_level = "low" := by
  have hne : mutations.isEmpty = false := by
    simpa [List.isEmpty_iff] using h
  have hspan : timeSpan mutations = 0 := by
    unfold timeSpan; omega
  have hmps : mutationsPerSecond mutations = 0 := by
    unfold mutationsPerSecond
    rw [hspan]
    norm_num
  constructor
  · simp [generate_monitoring_summary, hne, hmps, round2]
  · simp only [generate_monitoring_summary, hne, Bool.false_eq_true, if_false]
    rw [show (activityLevel mutations = "low") from
      (activityLevel_eq_low_iff mutations).mpr (by rw [hmps]; norm_num)]

/-- Witness for C10: a log with exactly one mutation. -/
theorem zero_timespan_classifies_low_witness :
    (generate_monitoring_summary [⟨500, "attr"⟩] 2).mutations_per_second = some 0 ∧
    (generate_monitoring_summary [⟨500, "attr"⟩] 2).activity_level = "low" :=
  zero_timespan_classifies_low [⟨500, "attr"⟩] (by simp) (by rfl) 2

theorem stability_wait_step_never_returns (mutationCount : Nat → Nat)
    (hgrow : ∀ t lc, lc ≤ t → mutationCount t ≠ lc ∧ mutationCount t ≤ t + 100) :
    ∀ fuel now stable_start lc, stable_start ≤ now → now - stable_start ≤ 100 →
      lc ≤ now →
      wait_for_content_stability mutationCount 10000 2000 fuel now stable_start lc = none := by
  intro fuel
  induction fuel with
  | zero => intro now ss lc _ _ _; rfl
  | succ n ih =>
    intro now ss lc hss hwin hlc
    unfold wait_for_content_stability
    rw [if_neg (by omega), if_neg (hgrow now lc hlc).1]
    exact ih (now + 100) now (mutationCount now) (by omega) (by omega)
      (hgrow now lc hlc).2

/-- C5 refuted (code bug): on a page whose mutation count has grown at every
poll, `_wait_for_content_stability` never returns — not within `max_wait`
milliseconds of the call and not ever — because each new mutation resets
`stable_start`, the very variable the `while` condition measures the
`max_wait` deadline from.  Formally: called at any time `t0` with the default
`max_wait = 10000` and `stability_duration = 2000` against a log that gains a
mutation every millisecond, the loop is still running after every number
`fuel` of iterations. -/
theorem wait_for_content_stability_misses_deadline :
    ∀ fuel t0, wait_for_content_stability_call everGrowingMutations 10000 2000 fuel t0 =
      none := by
  intro fuel t0
  exact stability_wait_step_never_returns everGrowingMutations
    (fun t lc hlc => ⟨by unfold everGrowingMutations; omega,
      by unfold everGrowingMutations; omega⟩)
    fuel t0 t0 0 le_rfl (by omega) (Nat.zero_le _)

end ContentMonitor

namespace ScrapingUtils

/-- C4 counterexample: on the oscillation scenario (`maxWaitMs = 10000`,
`holdMs = 2000`, height flipping every 200 ms) `wait_for_content_settlement`
does not return `false` — it returns `None`, as it does on every input,
because the Python function discards the promise's outcome and returns
nothing. -/
theorem wait_for_content_settlement_returns_no_boolean :
    wait_for_content_settlement oscillatingHeights 10000 2000 ≠ some false ∧
    wait_for_content_settlement oscillatingHeights 10000 2000 = none :=
  ⟨fun h => Option.noConfusion h, rfl⟩

/-- C4 amended: `wait_for_content_settlement` returns `None` on every input —
the caller cannot distinguish the two outcomes from the return value.  The
stable-for / deadline logic lives only inside the injected page-side promise:
on the oscillation scenario that promise resolves through the iteration cap
(`maxIterations = 10000 // 100 = 100` polls, i.e. the deadline) having never
accumulated `holdMs = 2000` of no-change. -/
theorem wait_for_content_settlement_amended :
    (∀ heights max_wait_time stability_duration,
      wait_for_content_settlement heights max_wait_time stability_duration = none) ∧
    settlementPromise oscillatingHeights 10000 2000 = (SettleOutcome.deadline, 100) :=
  ⟨fun _ _ _ => rfl, by decide⟩

/-- Witness for C4 amended: a concrete flat page and parameters. -/
theorem wait_for_content_settlement_amended_witness :
    wait_for_content_settlement (fun _ => (777 : Int)) 5000 1000 = none :=
  wait_for_content_settlement_amended.1 (fun _ => 777) 5000 1000

end ScrapingUtils

namespace DynamicWebScraper

theorem scrapeAttemptLoop_all_raise {R P : Type} (outcome : Nat → AttemptOutcome R)
    (err : Nat → String) (partial_results : P) (max_retries : Nat) :
    ∀ remaining attempt last_error, remaining + attempt = max_retries → 0 < remaining →
      (∀ i, attempt ≤ i → i < max_retries → outcome i = AttemptOutcome.raises (err i)) →
      scrapeAttemptLoop outcome partial_results max_retries remaining attempt last_error =
        ScrapeReturn.errorResult (err (max_retries - 1)) partial_results max_retries := by
  intro remaining
  induction remaining with
  | zero => intro attempt last_error hsum hpos _; omega
  | succ n ih =>
    intro attempt last_error hsum _ hall
    have hout := hall attempt le_rfl (by omega)
    by_cases hlt : attempt < max_retries - 1
    · have hn : 0 < n := by omega
      simp only [scrapeAttemptLoop, hout, if_pos hlt]
      exact ih (attempt + 1) (some (err attempt)) (by omega) hn
        (fun i hi hi2 => hall i (by omega) hi2)
    · have heq : attempt = max_retries - 1 := by omega
      simp only [scrapeAttemptLoop, hout, if_neg hlt, strOfLastError]
      rw [heq]

/-- C1: when every attempt raises, `comprehensive_scrape` runs its retry loop
through all `max_retries` attempt indices `0 .. max_retries - 1` and returns
the `error_result` dict tagged with the error of the last attempt
(`max_retries - 1`), an `attempts_made` count equal to `max_retries`, and the
stored partial results. -/
theorem comprehensive_scrape_exhausts_retries {R P : Type}
    (outcome : Nat → AttemptOutcome R) (err : Nat → String) (partial_results : P)
    (max_retries : Nat) (hpos : 0 < max_retries)
    (hall : ∀ i, i < max_retries → outcome i = AttemptOutcome.raises (err i)) :
    comprehensive_scrape true outcome partial_results max_retries =
      Except.ok (ScrapeReturn.errorResult (err (max_retries - 1)) partial_results
        max_retries) := by
  unfold comprehensive_scrape
  rw [if_pos rfl]
  exact congrArg Except.ok
    (scrapeAttemptLoop_all_raise outcome err partial_results max_retries
      max_retries 0 none (by omega) hpos (fun i _ hi => hall i hi))

/-- Witness for C1: `max_retries = 3`, every attempt raises `attempt <i>
failed`, stored partial results `["partial"]`; the result is the error dict
carrying the third attempt's error and `attempts_made = 3`. -/
theorem comprehensive_scrape_exhausts_retries_witness :
    comprehensive_scrape (R := Unit) true
      (fun i => AttemptOutcome.raises ("attempt " ++ toString i ++ " failed"))
      ["partial"] 3 =
      Except.ok (ScrapeReturn.errorResult "attempt 2 failed" ["partial"] 3) := by
  have h := comprehensive_scrape_exhausts_retries (R := Unit)
    (fun i => AttemptOutcome.raises ("attempt " ++ toString i ++ " failed"))
    (fun i => "attempt " ++ toString i ++ " failed") ["partial"] 3
    (by decide) (fun i _ => rfl)
  simpa using h

/-- C8: `_detect_bot_protection` returns `None` exactly when none of the
three indicator groups matched — no fixed phrase occurs in the lowercased
title, no probed selector matched, and the body text was not flagged as
implausibly short — and otherwise it returns the `"; "`-join of every matched
indicator, title matching being a function of the lowercased title only. -/
theorem detect_bot_protection_spec (title : String)
    (query_selector : String → Except String Bool) (body_text : Except String String) :
    (detect_bot_protection title query_selector body_text = none ↔
      titleIndicators title = [] ∧ selectorIndicators query_selector = [] ∧
        bodyIndicator body_text = none) ∧
    (detect_bot_protection title query_selector body_text =
        some (pyJoin "; " (titleIndicators title ++ selectorIndicators query_selector ++
          (bodyIndicator body_text).toList)) ↔
      titleIndicators title ++ selectorIndicators query_selector ++
        (bodyIndicator body_text).toList ≠ []) ∧
    (∀ title2, pyLower title = pyLower title2 →
      titleIndicators title = titleIndicators title2) := by
  refine ⟨?_, ?_, ?_⟩
  · unfold detect_bot_protection
    constructor
    · intro hnone
      by_cases h : (titleIndicators title ++ selectorIndicators query_selector ++
          (bodyIndicator body_text).toList).isEmpty
      · rw [List.isEmpty_iff] at h
        obtain ⟨h12, h3⟩ := List.append_eq_nil.mp h
        obtain ⟨h1, h2⟩ := List.append_eq_nil.mp h12
        refine ⟨h1, h2, ?_⟩
        cases hb : bodyIndicator body_text with
        | none => rfl
        | some s => rw [hb] at h3; simp at h3
      · rw [if_neg h] at hnone
        exact Option.noConfusion hnone
    · intro ⟨h1, h2, h3⟩
      rw [if_pos (by simp [h1, h2, h3])]
  · unfold detect_bot_protection
    by_cases h : (titleIndicators title ++ selectorIndicators query_selector ++
        (bodyIndicator body_text).toList).isEmpty
    · rw [if_pos h]
      have hx := List.isEmpty_iff.mp h
      constructor
      · intro habs; exact Option.noConfusion habs
      · intro hne; exact absurd hx hne
    · rw [if_neg h]
      have hx : titleIndicators title ++ selectorIndicators query_selector ++
          (bodyIndicator body_text).toList ≠ [] :=
        fun hnil => h (List.isEmpty_iff.mpr hnil)
      exact iff_of_true rfl hx
  · intro title2 hlow
    unfold titleIndicators
    rw [hlow]

set_option maxRecDepth 4000 in
/-- Witness for C8: a Cloudflare interstitial title, a page on which the
`#challenge-form` selector matches, and a 5-character body produce the
concatenation of all four matched indicators; a clean page produces `None`. -/
theorem detect_bot_protection_spec_witness :
    detect_bot_protection "Just a moment... | Cloudflare"
      (fun s => Except.ok (s == "#challenge-form")) (Except.ok "short") =
      some ("Title contains \'just a moment\'; Title contains \'cloudflare\'; " ++
        "Found protection element: #challenge-form; Very minimal page content") ∧
    detect_bot_protection "Example Domain" (fun _ => Except.ok false)
      (Except.ok (String.mk (List.replicate 200 'x'))) = none := by
  constructor
  · have h := (detect_bot_protection_spec "Just a moment... | Cloudflare"
      (fun s => Except.ok (s == "#challenge-form")) (Except.ok "short")).2.1
    rw [h.mpr (by decide)]
    decide
  · have h := (detect_bot_protection_spec "Example Domain" (fun _ => Except.ok false)
      (Except.ok (String.mk (List.replicate 200 'x')))).1
    exact h.mpr (by refine ⟨by decide, by decide, ?_⟩; decide)

end DynamicWebScraper

namespace ScrapingUtils

/-- C9 counterexample: two descriptors with the same non-empty identifier
`"x"` but different tag names receive different signatures from
`generate_element_signature` — the signature also embeds the tag and class
parts, so it is not a function of the identifier alone, and is not the bare
string `id:x` either. -/
theorem element_signature_not_id_alone :
    (ElementInfo.mk "x" "DIV" "" "").id = (ElementInfo.mk "x" "SPAN" "" "").id ∧
    (ElementInfo.mk "x" "DIV" "" "").id ≠ "" ∧
    generate_element_signature (ElementInfo.mk "x" "DIV" "" "") ≠
      generate_element_signature (ElementInfo.mk "x" "SPAN" "" "") ∧
    generate_element_signature (ElementInfo.mk "x" "DIV" "" "") = "id:x|tag:DIV" := by
  decide

/-- C9 amended: for a descriptor with a non-empty identifier, the dedup key
`_generate_element_id` is a pure function of the identifier alone (it is
`id_<id>`, so two descriptors with equal non-empty identifiers always get the
same key), while `generate_element_signature` leads with the `id:<id>` part
but appends tag and class parts, so it is a pure function of the
(identifier, tag, class) triple; both are stable across repeated
invocation on the same descriptor, being pure functions. -/
theorem element_identity_spec (pyHash : String → Int) (d1 d2 : ElementInfo)
    (h : d1.id ≠ "") :
    DynamicContentHandler.generate_element_id pyHash d1 = "id_" ++ d1.id ∧
    (d1.id = d2.id →
      DynamicContentHandler.generate_element_id pyHash d1 =
        DynamicContentHandler.generate_element_id pyHash d2) ∧
    (signature_parts d1).head? = some ("id:" ++ d1.id) ∧
    (d1.id = d2.id ∧ d1.tagName = d2.tagName ∧ d1.className = d2.className →
      generate_element_signature d1 = generate_element_signature d2) := by
  refine ⟨?_, ?_, ?_, ?_⟩
  · simp [DynamicContentHandler.generate_element_id, h]
  · intro hid
    have h2 : d2.id ≠ "" := hid ▸ h
    simp [DynamicContentHandler.generate_element_id, h, h2, hid]
  · simp [signature_parts, h]
  · intro ⟨ha, hb, hc⟩
    unfold generate_element_signature signature_parts
    rw [ha, hb, hc]

/-- Witness for C9 amended: a concrete descriptor pair sharing the
identifier `"x"`. -/
theorem element_identity_spec_witness :
    DynamicContentHandler.generate_element_id (fun _ => 0)
      (ElementInfo.mk "x" "DIV" "" "") = "id_x" ∧
    DynamicContentHandler.generate_element_id (fun _ => 0)
      (ElementInfo.mk "x" "DIV" "" "") =
      DynamicContentHandler.generate_element_id (fun _ => 0)
        (ElementInfo.mk "x" "SPAN" "other" "text") ∧
    (signature_parts (ElementInfo.mk "x" "DIV" "" "")).head? = some "id:x" := by
  have h := element_identity_spec (fun _ => 0) (ElementInfo.mk "x" "DIV" "" "")
    (ElementInfo.mk "x" "SPAN" "other" "text") (by decide)
  exact ⟨h.1, h.2.1 rfl, h.2.2.1⟩

end ScrapingUtils

namespace DynamicContentHandler

open ScrapingUtils (ElementInfo)

/-- C6 counterexample: a found element on which the click raises, the
element exposes `aria-expanded` and that strategy raises too, while the
native `details` strategy would not raise.  The first strategy that does not
raise is `details-open`, but `_expand_element` records a failed attempt with
no method and `content_changed = false` — a raise inside the shared second
`try` aborts the remaining strategies instead of falling through. -/
theorem expand_element_strategy_abort :
    claimedFirstNonRaisingMethod strategyRaisingElement = some "details-open" ∧
    (expand_element strategyRaisingElement sampleContent sampleContentRevealed).success
      = false ∧
    (expand_element strategyRaisingElement sampleContent sampleContentRevealed).method
      = none ∧
    (expand_element strategyRaisingElement sampleContent
      sampleContentRevealed).content_changed = false := by
  decide

/-- C6 amended: strategies are tried in the fixed order click,
aria-expanded, details-open, data-toggle, the latter three guarded by
applicability; the first applicable strategy that completes without raising
is recorded as the method of a successful attempt (an attempt outcome only),
but when the applicable strategy raises, the attempt is recorded as failed
without trying the remaining strategies.  `content_changed` is computed by
diffing the before/after content capture whenever the attempt succeeded —
success does not imply a content change — and is left `false` on failure. -/
theorem expand_element_dispatch (b : ElementBehavior) (cb ca : CaptureResult)
    (hf : b.found = true) (he : b.evaluateRaises = false) :
    (b.clickRaises = false →
      (expand_element b cb ca).success = true ∧
        (expand_element b cb ca).method = some "click") ∧
    (b.clickRaises = true → b.hasAriaExpanded = true → b.ariaRaises = false →
      (expand_element b cb ca).success = true ∧
        (expand_element b cb ca).method = some "aria-expanded") ∧
    (b.clickRaises = true → b.hasAriaExpanded = true → b.ariaRaises = true →
      (expand_element b cb ca).success = false ∧
        (expand_element b cb ca).method = none) ∧
    (b.clickRaises = true → b.hasAriaExpanded = false → b.isDetails = true →
      b.detailsRaises = false →
      (expand_element b cb ca).success = true ∧
        (expand_element b cb ca).method = some "details-open") ∧
    (b.clickRaises = true → b.hasAriaExpanded = false → b.isDetails = false →
      b.hasToggleData = true → b.toggleRaises = false →
      (expand_element b cb ca).success = true ∧
        (expand_element b cb ca).method = some "data-toggle") ∧
    ((expand_element b cb ca).success = true →
      ((expand_element b cb ca).content_changed = true ↔ cb ≠ ca)) ∧
    ((expand_element b cb ca).success = false →
      (expand_element b cb ca).content_changed = false) := by
  obtain ⟨f, c, ha, ar, d, dr, ht, tr, ev⟩ := b
  simp only at hf he
  subst hf he
  cases c <;> cases ha <;> cases ar <;> cases d <;> cases dr <;> cases ht <;> cases tr <;>
    simp [expand_element, jsExpandElement, decide_eq_true_eq]

/-- Witness for C6 amended: the happy-path element expanded over two
different captures succeeds via click with a detected content change. -/
theorem expand_element_dispatch_witness :
    (expand_element happyBehavior sampleContent sampleContentRevealed).success = true ∧
    (expand_element happyBehavior sampleContent sampleContentRevealed).method
      = some "click" ∧
    (expand_element happyBehavior sampleContent sampleContentRevealed).content_changed
      = true := by
  have h := expand_element_dispatch happyBehavior sampleContent sampleContentRevealed
    rfl rfl
  refine ⟨(h.1 rfl).1, (h.1 rfl).2, ?_⟩
  exact (h.2.2.2.2.2.1 (h.1 rfl).1).mpr (by decide)

/-- C2 counterexample: on `nestedNoChangePage` the single top-level
expansion succeeds but its before/after captures are identical
(`content_changed = false`); the engine nevertheless re-scans the element's
subtree and processes the nested element it finds there, at depth 1 — so
re-scanning is gated on success alone, not on success and content change. -/
theorem explore_rescans_without_content_change :
    explore_expandable_content nestedNoChangePage =
      [("id_outer-panel",
        { element_info := outerElement,
          collapsed_content := sampleContent,
          expanded_content := some sampleContent,
          interaction_result := some
            { success := true, method_used := none, method := some "click",
              error := none, content_changed := false },
          nested_expandables := some (NestedOutcome.results
            [("id_inner-panel",
              { element_info := innerElement,
                interaction_result :=
                  { success := true, method_used := none, method := some "click",
                    error := none, content_changed := false },
                depth := 1 })]),
          errors := [] })] := by
  decide

/-- C2 amended: the engine re-scans an element's subtree
(`_find_nested_expandables`) exactly when the element's expansion attempt
succeeded — whether or not its content changed — and the scan's findings are
processed at depth 1 with `max_depth = 3`; a call past the depth limit
yields the sentinel `Max depth reached` record instead of real attempts; at
most the first 5 nested elements are processed per level and every produced
record carries the calling depth, so no record ever carries
`depth > max_depth`. -/
theorem nested_expansion_bounds (page : ExplorePage) (e : ElementInfo)
    (nested_elements : List ElementInfo) (depth max_depth : Nat) :
    ((exploreEntry page e).2.nested_expandables.isSome = true ↔
      (expand_element (page.behavior e) (page.contentBefore e)
        (page.contentAfter e)).success = true ∧ page.nestedFound e ≠ []) ∧
    (∀ n, (exploreEntry page e).2.nested_expandables = some n →
      n = handle_nested_expandables page (page.nestedFound e) 1 3) ∧
    (depth > max_depth →
      handle_nested_expandables page nested_elements depth max_depth =
        NestedOutcome.skipped "Max depth reached") ∧
    (∀ records, handle_nested_expandables page nested_elements depth max_depth =
        NestedOutcome.results records →
      depth ≤ max_depth ∧ records.length ≤ 5 ∧ ∀ r ∈ records, r.2.depth = depth) := by
  refine ⟨?_, ?_, ?_, ?_⟩
  · unfold exploreEntry
    by_cases hs : (expand_element (page.behavior e) (page.contentBefore e)
        (page.contentAfter e)).success
    · by_cases hn : (page.nestedFound e).isEmpty
      · simp [hs, hn, List.isEmpty_iff.mp hn]
      · have hne : page.nestedFound e ≠ [] := fun hnil => hn (List.isEmpty_iff.mpr hnil)
        simp [hs, hn, hne]
    · simp [hs, Bool.not_eq_true _ ▸ hs]
  · intro n hn
    unfold exploreEntry at hn
    by_cases hs : (expand_element (page.behavior e) (page.contentBefore e)
        (page.contentAfter e)).success
    · by_cases hne : (page.nestedFound e).isEmpty
      · simp [hs, hne] at hn
      · simp [hs, hne] at hn
        exact hn.symm
    · simp [hs] at hn
  · intro hd
    simp [handle_nested_expandables, hd]
  · intro records hrec
    unfold handle_nested_expandables at hrec
    by_cases hd : depth > max_depth
    · rw [if_pos hd] at hrec
      exact absurd hrec (by simp)
    · rw [if_neg hd] at hrec
      obtain rfl := (NestedOutcome.results.injEq _ _).mp hrec.symm
      refine ⟨by omega, ?_, ?_⟩
      · rw [List.length_map, List.length_take]
        exact min_le_left _ _
      · intro r hr
        obtain ⟨a, _, rfl⟩ := List.mem_map.mp hr
        rfl

/-- Witness for C2 amended: on the concrete nested page the re-scan fires
(expansion succeeded, one nested element found), and a hypothetical call at
depth 4 with the default limit 3 produces the sentinel record. -/
theorem nested_expansion_bounds_witness :
    (exploreEntry nestedNoChangePage outerElement).2.nested_expandables.isSome = true ∧
    handle_nested_expandables nestedNoChangePage [innerElement] 4 3 =
      NestedOutcome.skipped "Max depth reached" := by
  have h := nested_expansion_bounds nestedNoChangePage outerElement [innerElement] 4 3
  exact ⟨h.1.mpr ⟨by decide, by decide⟩, h.2.2.1 (by decide)⟩

end DynamicContentHandler

namespace PageStructureCapture

/-- C7 counterexample: on a page whose DOM-snapshot evaluation raises,
`capture_page_structure` raises that same error instead of degrading to a
partial snapshot — the other three sub-captures would have succeeded. -/
theorem capture_page_structure_aborts :
    capture_page_structure corruptedPage =
      Except.error "Execution context was destroyed" := rfl

/-- C7 amended: `capture_page_structure` succeeds exactly when all four
sub-captures succeed; it has no exception handling of its own, so the first
sub-capture that raises (in dict-construction order: DOM snapshot,
interactive elements, meta info, content patterns) aborts the whole snapshot
with that error rather than degrading that field to an empty result. -/
theorem capture_page_structure_propagation (page : SnapshotPage) :
    ((capture_page_structure page).isOk = true ↔
      page.dom_snapshot.isOk = true ∧ page.interactive_elements.isOk = true ∧
        page.meta_info.isOk = true ∧ page.content_patterns.isOk = true) ∧
    (∀ e, page.dom_snapshot = Except.error e →
      capture_page_structure page = Except.error e) ∧
    (∀ e dom, page.dom_snapshot = Except.ok dom →
      page.interactive_elements = Except.error e →
      capture_page_structure page = Except.error e) ∧
    (∀ e dom els, page.dom_snapshot = Except.ok dom →
      page.interactive_elements = Except.ok els →
      page.meta_info = Except.error e →
      capture_page_structure page = Except.error e) ∧
    (∀ e dom els mi, page.dom_snapshot = Except.ok dom →
      page.interactive_elements = Except.ok els →
      page.meta_info = Except.ok mi →
      page.content_patterns = Except.error e →
      capture_page_structure page = Except.error e) := by
  obtain ⟨url, title, vp, dom, ie, mi, cp⟩ := page
  rcases dom with e1 | dom <;> rcases ie with e2 | ie <;> rcases mi with e3 | mi <;>
    rcases cp with e4 | cp <;>
    simp [capture_page_structure, Except.isOk, Except.toBool, Except.bind, bind, pure,
      Except.pure]

/-- Witness for C7 amended: a fully healthy page yields a successful
snapshot; the corrupted page propagates the DOM-snapshot error. -/
theorem capture_page_structure_propagation_witness :
    (capture_page_structure
      { url := "https://example.com", title := "t", viewport := "v",
        dom_snapshot := Except.ok "dom", interactive_elements := Except.ok ["button"],
        meta_info := Except.ok "meta", content_patterns := Except.ok "patterns" }).isOk
      = true ∧
    capture_page_structure corruptedPage =
      Except.error "Execution context was destroyed" := by
  have h1 := capture_page_structure_propagation
    { url := "https://example.com", title := "t", viewport := "v",
      dom_snapshot := Except.ok "dom", interactive_elements := Except.ok ["button"],
      meta_info := Except.ok "meta", content_patterns := Except.ok "patterns" }
  have h2 := capture_page_structure_propagation corruptedPage
  exact ⟨h1.1.mpr ⟨rfl, rfl, rfl, rfl⟩,
    h2.2.1 "Execution context was destroyed" rfl⟩

end PageStructureCapture

end Scraping
